import Mathlib

/-!
Verification of the Ecliptix OPAQUE client/responder headers.

The development shallowly embeds:
* the compile-time wire-size constants of the two header generations
  (`Packages/EcliptixOPAQUE/Sources/COpaqueClient/include/opaque.h`, the
  canonical one, and
  `ThirdParty/xcframeworks/OpaqueClient.xcframework/ios-arm64-simulator/Headers/opaque/opaque.h`,
  the legacy one);
* the error-code enumerations of the C++ and C interfaces;
* the deleted/defaulted special members of the role classes and the secure
  buffer, transcribed from the class declarations; and
* an executable model of the OPAQUE protocol core (OPRF, envelope seal/open,
  KE1/KE2/KE3, the two finish operations).  The repository ships only the
  header declarations of these operations, so the model follows the
  specification text, with the header signatures and struct layouts as
  constraints.
-/

namespace Ecliptix

/-! ## Wire-size constants of the canonical header
(`COpaqueClient/include/opaque.h`, lines 9-23). -/

namespace Canon

def OPRF_SEED_LENGTH : Nat := 32

def PRIVATE_KEY_LENGTH : Nat := 32

def PUBLIC_KEY_LENGTH : Nat := 32

def MASTER_KEY_LENGTH : Nat := 32

def NONCE_LENGTH : Nat := 32

def MAC_LENGTH : Nat := 64

def HASH_LENGTH : Nat := 64

def ENVELOPE_LENGTH : Nat := 176

def REGISTRATION_REQUEST_LENGTH : Nat := 32

def REGISTRATION_RESPONSE_LENGTH : Nat := 96

def CREDENTIAL_REQUEST_LENGTH : Nat := 96

def CREDENTIAL_RESPONSE_LENGTH : Nat := 208

def KE1_LENGTH : Nat := 96

def KE2_LENGTH : Nat := 336

def KE3_LENGTH : Nat := 64

end Canon

/-! ## Wire-size constants of the legacy header
(`xcframeworks/.../ios-arm64-simulator/Headers/opaque/opaque.h`, lines 7-20). -/

namespace Legacy

def OPRF_SEED_LENGTH : Nat := 32

def PRIVATE_KEY_LENGTH : Nat := 32

def PUBLIC_KEY_LENGTH : Nat := 32

def NONCE_LENGTH : Nat := 32

def MAC_LENGTH : Nat := 64

def HASH_LENGTH : Nat := 64

def ENVELOPE_LENGTH : Nat := 144

def REGISTRATION_REQUEST_LENGTH : Nat := 32

def REGISTRATION_RESPONSE_LENGTH : Nat := 96

def CREDENTIAL_REQUEST_LENGTH : Nat := 96

def CREDENTIAL_RESPONSE_LENGTH : Nat := 176

def KE1_LENGTH : Nat := 96

def KE2_LENGTH : Nat := 304

def KE3_LENGTH : Nat := 64

end Legacy

/-! ## Error-code enumerations

`Result` transcribes the C++ enumeration of the canonical header
(`opaque.h` lines 34-42); `opaque_result_t` the C enumeration
(`opaque_client_c.h` lines 28-36); `SimResult` the C++ enumeration of the
legacy simulator header (`opaque/opaque.h` lines 21-29). -/

inductive Result where
  | Success
  | InvalidInput
  | CryptoError
  | MemoryError
  | ValidationError
  | AuthenticationError
  | InvalidPublicKey
deriving DecidableEq, Repr, Fintype

def Result.toInt : Result → Int
  | .Success => 0
  | .InvalidInput => -1
  | .CryptoError => -2
  | .MemoryError => -3
  | .ValidationError => -4
  | .AuthenticationError => -5
  | .InvalidPublicKey => -6

inductive opaque_result_t where
  | OPAQUE_SUCCESS
  | OPAQUE_INVALID_INPUT
  | OPAQUE_CRYPTO_ERROR
  | OPAQUE_MEMORY_ERROR
  | OPAQUE_VALIDATION_ERROR
  | OPAQUE_AUTHENTICATION_ERROR
  | OPAQUE_INVALID_PUBLIC_KEY
deriving DecidableEq, Repr, Fintype

def opaque_result_t.toInt : opaque_result_t → Int
  | .OPAQUE_SUCCESS => 0
  | .OPAQUE_INVALID_INPUT => -1
  | .OPAQUE_CRYPTO_ERROR => -2
  | .OPAQUE_MEMORY_ERROR => -3
  | .OPAQUE_VALIDATION_ERROR => -4
  | .OPAQUE_AUTHENTICATION_ERROR => -5
  | .OPAQUE_INVALID_PUBLIC_KEY => -6

inductive SimResult where
  | Success
  | InvalidInput
  | CryptoError
  | MemoryError
  | ValidationError
  | AuthenticationError
  | InvalidPublicKey
deriving DecidableEq, Repr, Fintype

def SimResult.toInt : SimResult → Int
  | .Success => 0
  | .InvalidInput => -1
  | .CryptoError => -2
  | .MemoryError => -3
  | .ValidationError => -4
  | .AuthenticationError => -5
  | .InvalidPublicKey => -6

/-- The name-for-name correspondence between the C++ `Result` and the C
`opaque_result_t` constructors. -/
def resultToC : Result → opaque_result_t
  | .Success => .OPAQUE_SUCCESS
  | .InvalidInput => .OPAQUE_INVALID_INPUT
  | .CryptoError => .OPAQUE_CRYPTO_ERROR
  | .MemoryError => .OPAQUE_MEMORY_ERROR
  | .ValidationError => .OPAQUE_VALIDATION_ERROR
  | .AuthenticationError => .OPAQUE_AUTHENTICATION_ERROR
  | .InvalidPublicKey => .OPAQUE_INVALID_PUBLIC_KEY

/-- The name-for-name correspondence between the canonical C++ `Result`
and the legacy simulator header's `Result`. -/
def resultToSim : Result → SimResult
  | .Success => .Success
  | .InvalidInput => .InvalidInput
  | .CryptoError => .CryptoError
  | .MemoryError => .MemoryError
  | .ValidationError => .ValidationError
  | .AuthenticationError => .AuthenticationError
  | .InvalidPublicKey => .InvalidPublicKey

/-! ## Special-member declarations of the role classes

Transcribed from the class declarations: `SecureBuffer` in both `opaque.h`
generations (copy constructor and copy assignment `= delete`, move
constructor and move assignment present), `OpaqueClient` in
`xcframeworks/.../client.h` lines 40-41, `OpaqueResponder` in
`responder.h` lines 47-48, `OpaqueServer` in `xcframeworks/.../server.h`
lines 37-38. -/

structure CopyControl where
  copyCtorDeleted : Bool
  copyAssignDeleted : Bool
  moveCtorPresent : Bool
  moveAssignPresent : Bool
deriving DecidableEq, Repr

def SecureBuffer.copyControl : CopyControl :=
  { copyCtorDeleted := true, copyAssignDeleted := true
    moveCtorPresent := true, moveAssignPresent := true }

def SecureBufferLegacy.copyControl : CopyControl :=
  { copyCtorDeleted := true, copyAssignDeleted := true
    moveCtorPresent := true, moveAssignPresent := true }

def OpaqueClient.copyControl : CopyControl :=
  { copyCtorDeleted := true, copyAssignDeleted := true
    moveCtorPresent := false, moveAssignPresent := false }

def OpaqueResponder.copyControl : CopyControl :=
  { copyCtorDeleted := true, copyAssignDeleted := true
    moveCtorPresent := false, moveAssignPresent := false }

def OpaqueServer.copyControl : CopyControl :=
  { copyCtorDeleted := true, copyAssignDeleted := true
    moveCtorPresent := false, moveAssignPresent := false }

/-! ## Layout-consistency predicates for the envelope generations -/

structure LayoutConstants where
  envelopeLen : Nat
  credentialResponseLen : Nat
  ke2Len : Nat
deriving DecidableEq, Repr

def canonicalLayout : LayoutConstants :=
  { envelopeLen := Canon.ENVELOPE_LENGTH
    credentialResponseLen := Canon.CREDENTIAL_RESPONSE_LENGTH
    ke2Len := Canon.KE2_LENGTH }

def legacyLayout : LayoutConstants :=
  { envelopeLen := Legacy.ENVELOPE_LENGTH
    credentialResponseLen := Legacy.CREDENTIAL_RESPONSE_LENGTH
    ke2Len := Legacy.KE2_LENGTH }

/-- A constant set is consistent with the 176-byte canonical envelope
layout: the envelope is 176 bytes and the derived credential-response and
KE2 sizes follow from it. -/
def consistentWith176 (L : LayoutConstants) : Prop :=
  L.envelopeLen = 176 ∧
  L.credentialResponseLen = 32 + L.envelopeLen ∧
  L.ke2Len = 32 + 32 + L.credentialResponseLen + 64

/-- A constant set is consistent with the 144-byte legacy envelope layout. -/
def consistentWith144 (L : LayoutConstants) : Prop :=
  L.envelopeLen = 144 ∧
  L.credentialResponseLen = 32 + L.envelopeLen ∧
  L.ke2Len = 32 + 32 + L.credentialResponseLen + 64

instance (L : LayoutConstants) : Decidable (consistentWith176 L) := by
  unfold consistentWith176; infer_instance

instance (L : LayoutConstants) : Decidable (consistentWith144 L) := by
  unfold consistentWith144; infer_instance

/-! ## The protocol model

The repository ships only header declarations for the protocol operations
(`opaque.h`, `responder.h`, `client.h`, `opaque_client_c.h`); the
translation units are not under `src/`.  The model below therefore follows
the specification text (§4.2 OPRF, §4.3 Envelope, §4.4 Initiator role,
§4.5 Responder role), constrained by the header signatures, the struct
field lists, and the canonical wire-size constants.

The prime-order group is modelled by its scalar field `Zq` (a group
element is represented by its discrete logarithm with respect to the base
point, so `pk = sk·G` is represented by the scalar `sk`, and scalar
multiplication is field multiplication).  Hashes, HKDF, HMAC and the
secret-box cipher are modelled symbolically as constructors of the free
term algebra `B` of byte-string values; `B.size` gives each term its
on-wire byte count. -/

/-- The scalar field of the 32-byte prime-order group. -/
abbrev Zq := ZMod 101

instance : Fact (Nat.Prime 101) := ⟨by norm_num⟩

/-- Symbolic byte-string values.  `point` and `scalarV` are 32-byte group
element / scalar encodings; `nonce i` is the 32-byte random string drawn
at RNG index `i`; `pair` is wire concatenation; `extract`, `expand`,
`hmac`, `hash` are the SHA-512 HKDF/HMAC primitives; `enc` is the
secret-box ciphertext (same length as the plaintext, tag separate);
`slice d off len` is the `len`-byte substring of `d` at offset `off`. -/
inductive B where
  | bytes (l : List Nat)
  | label (s : String)
  | point (x : Zq)
  | scalarV (x : Zq)
  | nonce (i : Nat)
  | pair (a b : B)
  | extract (salt ikm : B)
  | expand (prk info : B) (len : Nat)
  | hmac (key data : B)
  | hash (d : B)
  | enc (key nonceVal pt : B)
  | slice (d : B) (off len : Nat)
deriving DecidableEq, Repr

/-- On-wire byte length of a symbolic value. -/
def B.size : B → Nat
  | .bytes l => l.length
  | .label s => s.length
  | .point _ => 32
  | .scalarV _ => 32
  | .nonce _ => 32
  | .pair a b => a.size + b.size
  | .extract _ _ => 64
  | .expand _ _ len => len
  | .hmac _ _ => 64
  | .hash _ => 64
  | .enc _ _ pt => pt.size
  | .slice _ _ len => len

/-- A concrete structural mix of a symbolic value into `Nat`, standing in
for the byte interpretation that the hash-to-group operation consumes. -/
def B.mix : B → Nat
  | .bytes l => 2 + 7 * l.foldl (fun a b => a * 257 + b + 1) 0
  | .label s => 3 + 7 * s.foldl (fun a c => a * 257 + c.toNat + 1) 0
  | .point x => 5 + 7 * x.val
  | .scalarV x => 11 + 7 * x.val
  | .nonce i => 13 + 7 * i
  | .pair a b => 17 + 7 * (a.mix * 1000003 + b.mix)
  | .extract s i => 19 + 7 * (s.mix * 1000003 + i.mix)
  | .expand p i len => 23 + 7 * ((p.mix * 1000003 + i.mix) * 1009 + len)
  | .hmac k d => 29 + 7 * (k.mix * 1000003 + d.mix)
  | .hash d => 31 + 7 * d.mix
  | .enc k n p => 37 + 7 * ((k.mix * 1000003 + n.mix) * 1000003 + p.mix)
  | .slice d off len => 41 + 7 * ((d.mix * 1009 + off) * 1009 + len)

/-- The random tape of a session: a stream of scalars for key/blind
generation and a stream of indices for 32-byte nonce / masking-key
draws.  Drawing pops the head; an exhausted tape is an RNG failure. -/
structure Rng where
  scalars : List Zq
  blobs : List Nat
deriving DecidableEq, Repr

/-- Draw one scalar, skipping zero draws (the specification regenerates a
zero scalar during registration). -/
def Rng.drawNonzeroScalar : Rng → Option (Zq × Rng)
  | ⟨[], _⟩ => none
  | ⟨s :: rest, bl⟩ =>
      if s = 0 then Rng.drawNonzeroScalar ⟨rest, bl⟩ else some (s, ⟨rest, bl⟩)

/-- Draw one scalar strictly: a zero draw fails (the specification fails
on a zero scalar during authentication). -/
def Rng.drawScalarStrict : Rng → Option (Zq × Rng)
  | ⟨[], _⟩ => none
  | ⟨s :: rest, bl⟩ => if s = 0 then none else some (s, ⟨rest, bl⟩)

/-- Draw one 32-byte random string (by its tape index). -/
def Rng.drawBlob : Rng → Option (Nat × Rng)
  | ⟨_, []⟩ => none
  | ⟨sc, b :: rest⟩ => some (b, ⟨sc, rest⟩)

namespace crypto

/-- Modelled from the spec: §4.1 `derive_key_pair(seed) → (sk, pk)` —
reduce the seed to a scalar, fail if zero, `pk = sk·G` (in discrete-log
representation the public key is the scalar itself).  The header declares
`crypto::derive_key_pair` in `opaque.h` line 151; its translation unit is
not in the repository. -/
def derive_key_pair (seed : Zq) : Except Result (Zq × Zq) :=
  if seed = 0 then .error .CryptoError else .ok (seed, seed)

/-- Modelled from the spec: §4.1 `scalar_mult(scalar, point)` — group
scalar multiplication, `InvalidPublicKey` if the input point is the
identity or the product is the identity.  Declared at `opaque.h` line
153; translation unit not in the repository. -/
def scalar_mult (s x : Zq) : Except Result Zq :=
  if x = 0 ∨ s * x = 0 then .error .InvalidPublicKey else .ok (s * x)

end crypto

namespace oblivious_prf

/-- Modelled from the spec: §4.2 `hash_to_group` — a constant-time hash
onto the group.  Declared at `opaque.h` line 134; translation unit not in
the repository.  Modelled as a concrete structural mix into the scalar
field (callers reject the identity output). -/
def hash_to_group (input : B) : Zq := (B.mix input : Zq)

/-- Modelled from the spec: §4.2 `blind(input)` with the drawn random
scalar made explicit — `H(input)·r`, rejecting a zero scalar and an
identity hash point.  Declared at `opaque.h` line 142. -/
def blind (input : B) (r : Zq) : Except Result (Zq × Zq) :=
  if r = 0 then .error .CryptoError
  else
    let h := hash_to_group input
    if h = 0 then .error .CryptoError
    else .ok (h * r, r)

/-- Modelled from the spec: §4.2 `evaluate(blinded, key)` =
`blinded · key`; an identity input or output is `InvalidPublicKey`
(§4.5 tie-breaks).  Declared at `opaque.h` line 136; the declared key
argument is the responder private key. -/
def evaluate (blinded key : Zq) : Except Result Zq :=
  if blinded = 0 ∨ blinded * key = 0 then .error .InvalidPublicKey
  else .ok (blinded * key)

/-- Modelled from the spec: §4.2 `finalize(input, blind_scalar,
evaluated)` — unblind with `r⁻¹` and HKDF-Extract over
`input ‖ unblinded`.  Declared at `opaque.h` line 139. -/
def finalize (input : B) (r evaluated : Zq) : Except Result B :=
  if r = 0 then .error .CryptoError
  else .ok (.extract (.label "") (.pair input (.point (evaluated * r⁻¹))))

end oblivious_prf

namespace envelope

/-- Modelled from the spec: §4.3 `seal` — nonce, envelope key and outer
MAC key expanded from the randomized password, plaintext
`initiator_sk ‖ responder_pk ‖ master_key`, secret-box encryption with a
16-byte inner tag, 32-byte truncated outer transcript HMAC; the 176-byte
wire form is `nonce ‖ ciphertext ‖ outer_tag ‖ inner_tag`.  Declared at
`opaque.h` line 173; the drawn nonce index is made explicit. -/
def sealEnv (rpwd : B) (rpk isk ipk : Zq) (mk : B) (n : Nat) : B :=
  let nb := B.nonce n
  let ek := B.expand rpwd (.pair (.label "EnvelopeKey") nb) 32
  let pt := B.pair (.scalarV isk) (.pair (.point rpk) mk)
  let ct := B.enc ek nb pt
  let innerTag := B.slice (.hmac ek (.pair nb pt)) 0 16
  let omk := B.expand rpwd (.pair (.label "EnvelopeMAC") nb) 32
  let outerTag := B.slice (.hmac omk (.pair nb (.pair (.point rpk) (.point ipk)))) 0 32
  B.pair nb (.pair ct (.pair outerTag innerTag))

/-- Modelled from the spec: §4.3 `open` — recompute both derived keys,
verify inner and outer tags, decrypt, re-derive the initiator public key
from the decrypted private key, and check the witnessed responder public
key against the configured one; any mismatch is `AuthenticationError`.
The fixed offsets of the §3 envelope layout (32-byte nonce, 96-byte
ciphertext, 48-byte tag region) appear as component-size guards.
Declared at `opaque.h` line 177. -/
def openEnv (env rpwd : B) (knownRpk : Zq) : Except Result (Zq × Zq × Zq × B) :=
  match env with
  | .pair nb (.pair ct (.pair outerTag innerTag)) =>
      let ek := B.expand rpwd (.pair (.label "EnvelopeKey") nb) 32
      match ct with
      | .enc k n pt =>
          if nb.size = 32 ∧ pt.size = 96 ∧ k = ek ∧ n = nb ∧
             innerTag = B.slice (.hmac ek (.pair nb pt)) 0 16 then
            match pt with
            | .pair (.scalarV isk) (.pair (.point rpkW) mk) =>
                let ipk := isk
                let omk := B.expand rpwd (.pair (.label "EnvelopeMAC") nb) 32
                if outerTag =
                     B.slice (.hmac omk (.pair nb (.pair (.point knownRpk) (.point ipk)))) 0 32
                   ∧ rpkW = knownRpk then
                  .ok (rpkW, isk, ipk, mk)
                else .error .AuthenticationError
            | _ => .error .AuthenticationError
          else .error .AuthenticationError
      | _ => .error .AuthenticationError
  | _ => .error .AuthenticationError

end envelope

/-- The HKDF key schedule shared by the two roles (spec §4.4 steps 8-9 and
§4.5 step 6): `prk = HKDF-Extract(T, ikm)`, handshake secret and session
key expanded from it. -/
def keySchedule (T ikm : B) : B × B :=
  let prk := B.extract T ikm
  (.expand prk (.label "Handshake") 64, .expand prk (.label "SessionKey") 64)

namespace client

/-- The initiator state-machine phases of spec §4.4. -/
inductive Phase where
  | empty
  | awaitRegResp
  | awaitKe2
  | awaitFinish
  | doneReg
  | doneAuth
  | failed
deriving DecidableEq, Repr

/-- The initiator session state, with the field list of `ClientState` in
`client.h` lines 23-35 (password, long-term key pair, ephemeral key pair,
responder public key, session key, OPRF blind scalar, client nonce) plus
the recovered master key held for `finish` and the §4.4 phase tag. -/
structure ClientState where
  phase : Phase
  password : Option B
  client_private_key : Option Zq
  client_public_key : Option Zq
  client_ephemeral_private_key : Option Zq
  client_ephemeral_public_key : Option Zq
  server_public_key : Option Zq
  session_key : Option B
  oprf_blind_scalar : Option Zq
  client_nonce : Option Nat
  master_key : Option B
deriving DecidableEq, Repr

/-- A zeroized state carrying only a phase tag: every secret field wiped. -/
def ClientState.zeroized (ph : Phase) : ClientState :=
  { phase := ph, password := none, client_private_key := none
    client_public_key := none, client_ephemeral_private_key := none
    client_ephemeral_public_key := none, server_public_key := none
    session_key := none, oprf_blind_scalar := none, client_nonce := none
    master_key := none }

/-- A freshly created state (`state_create`). -/
def ClientState.fresh : ClientState := ClientState.zeroized .empty

/-- Modelled from the spec: §4.4 `create_registration_request(password,
state)` — blind the password, store the password copy and the blind
scalar, emit the 32-byte blinded element; `∅ → AWAIT_REG_RESP`.  Declared
in `client.h` lines 42-47 and `opaque_client_c.h` lines 91-98; the
translation unit is not in the repository. -/
def create_registration_request (pwd : B) (st : ClientState) (rng : Rng) :
    Except Result B × ClientState × Rng :=
  if st.phase ≠ .empty then (.error .InvalidInput, st, rng)
  else
    match rng.drawNonzeroScalar with
    | none => (.error .CryptoError, ClientState.zeroized .failed, rng)
    | some (r, rng1) =>
        match oblivious_prf.blind pwd r with
        | .error e => (.error e, ClientState.zeroized .failed, rng1)
        | .ok (blinded, rStored) =>
            (.ok (.point blinded),
             { ClientState.zeroized .awaitRegResp with
                 phase := .awaitRegResp, password := some pwd
                 oprf_blind_scalar := some rStored },
             rng1)

/-- Modelled from the spec: §4.4 `finalize_registration(response[96],
master_key[32], state) → record[208]` — exact-size checks first (spec §3
invariant 4, before any cryptographic work), parse
`evaluated ‖ responder_pk ‖ nonce`, OPRF-finalize, derive the randomized
password, generate a fresh long-term key pair, seal the envelope, emit
`responder_pk ‖ envelope` and zeroize the state
(`AWAIT_REG_RESP → DONE_REG`).  Declared in `opaque_client_c.h` lines
112-121; the translation unit is not in the repository. -/
def finalize_registration (response mk : B) (st : ClientState) (rng : Rng) :
    Except Result B × ClientState × Rng :=
  if response.size ≠ Canon.REGISTRATION_RESPONSE_LENGTH then (.error .InvalidInput, st, rng)
  else if mk.size ≠ Canon.MASTER_KEY_LENGTH then (.error .InvalidInput, st, rng)
  else if st.phase ≠ .awaitRegResp then (.error .InvalidInput, st, rng)
  else
    match st.password, st.oprf_blind_scalar with
    | some pwd, some r =>
        match response with
        | .pair (.point ev) (.pair (.point rpk) _maskNonce) =>
            match oblivious_prf.finalize pwd r ev with
            | .error e => (.error e, ClientState.zeroized .failed, rng)
            | .ok oprfOut =>
                let rpwd := B.extract (.label "") (.pair oprfOut (.hash pwd))
                match rng.drawNonzeroScalar with
                | none => (.error .CryptoError, ClientState.zeroized .failed, rng)
                | some (seed, rng1) =>
                    match crypto.derive_key_pair seed with
                    | .error e => (.error e, ClientState.zeroized .failed, rng1)
                    | .ok (isk, ipk) =>
                        match rng1.drawBlob with
                        | none => (.error .CryptoError, ClientState.zeroized .failed, rng1)
                        | some (n, rng2) =>
                            let env := envelope.sealEnv rpwd rpk isk ipk mk n
                            (.ok (.pair (.point rpk) env),
                             ClientState.zeroized .doneReg, rng2)
        | _ => (.error .ValidationError, ClientState.zeroized .failed, rng)
    | _, _ => (.error .InvalidInput, st, rng)

/-- Modelled from the spec: §4.4 `generate_ke1(password, state) →
KE1(96)` — blind the password, generate the ephemeral key pair and the
initiator nonce, emit `initiator_nonce ‖ epk ‖ blinded`; `∅ → AWAIT_KE2`.
Declared in `client.h` lines 54-59 and `opaque_client_c.h` lines 133-140;
the translation unit is not in the repository. -/
def generate_ke1 (pwd : B) (st : ClientState) (rng : Rng) :
    Except Result B × ClientState × Rng :=
  if st.phase ≠ .empty then (.error .InvalidInput, st, rng)
  else
    match rng.drawScalarStrict with
    | none => (.error .CryptoError, ClientState.zeroized .failed, rng)
    | some (r, rng1) =>
        match oblivious_prf.blind pwd r with
        | .error e => (.error e, ClientState.zeroized .failed, rng1)
        | .ok (blinded, rStored) =>
            match rng1.drawScalarStrict with
            | none => (.error .CryptoError, ClientState.zeroized .failed, rng1)
            | some (seed, rng2) =>
                match crypto.derive_key_pair seed with
                | .error e => (.error e, ClientState.zeroized .failed, rng2)
                | .ok (esk, epk) =>
                    match rng2.drawBlob with
                    | none => (.error .CryptoError, ClientState.zeroized .failed, rng2)
                    | some (cn, rng3) =>
                        (.ok (.pair (.nonce cn) (.pair (.point epk) (.point blinded))),
                         { ClientState.zeroized .awaitKe2 with
                             phase := .awaitKe2, password := some pwd
                             oprf_blind_scalar := some rStored
                             client_ephemeral_private_key := some esk
                             client_ephemeral_public_key := some epk
                             client_nonce := some cn },
                         rng3)

/-- Modelled from the spec: §4.4 `generate_ke3(KE2[336], state) →
KE3(64)` — exact-size check first (spec §3 invariant 4), parse
`responder_nonce ‖ responder_epk ‖ credential_response ‖ responder_mac`
with the canonical credential-response layout
`evaluated_element ‖ envelope` (§4.4 step 3), OPRF-finalize, open the
envelope against the configured responder public key, hash the
transcript, compute the three DH shares, run the key schedule,
constant-time-check the responder MAC, store session and master key, emit
the initiator MAC (`AWAIT_KE2 → AWAIT_FINISH`).  Declared in `client.h`
lines 60-65 and `opaque_client_c.h` lines 152-159; the translation unit
is not in the repository.  `cfgRpk` is the responder public key the
`OpaqueClient` was constructed with. -/
def generate_ke3 (ke2 : B) (cfgRpk : Zq) (st : ClientState) (rng : Rng) :
    Except Result B × ClientState × Rng :=
  if ke2.size ≠ Canon.KE2_LENGTH then (.error .InvalidInput, st, rng)
  else if st.phase ≠ .awaitKe2 then (.error .InvalidInput, st, rng)
  else
    match st.password, st.oprf_blind_scalar, st.client_ephemeral_private_key,
          st.client_nonce with
    | some pwd, some r, some esk, some cn =>
        match ke2 with
        | .pair rn (.pair (.point repk) (.pair cred rmac)) =>
            match cred with
            | .pair (.point ev) env =>
                if rn.size ≠ Canon.NONCE_LENGTH ∨ rmac.size ≠ Canon.MAC_LENGTH ∨
                   env.size ≠ Canon.ENVELOPE_LENGTH then
                  (.error .ValidationError, ClientState.zeroized .failed, rng)
                else
                match oblivious_prf.finalize pwd r ev with
                | .error e => (.error e, ClientState.zeroized .failed, rng)
                | .ok oprfOut =>
                    let rpwd := B.extract (.label "") (.pair oprfOut (.hash pwd))
                    match envelope.openEnv env rpwd cfgRpk with
                    | .error e => (.error e, ClientState.zeroized .failed, rng)
                    | .ok (rpkW, isk, _ipk, mkRec) =>
                        let blinded := oblivious_prf.hash_to_group pwd * r
                        let ke1 := B.pair (.nonce cn)
                          (.pair (.point esk) (.point blinded))
                        let T := B.hash (.pair ke1 (.pair cred (.pair rn (.point repk))))
                        match crypto.scalar_mult esk repk, crypto.scalar_mult esk rpkW,
                              crypto.scalar_mult isk repk with
                        | .ok dh1, .ok dh2, .ok dh3 =>
                            let ikm := B.pair (.point dh1) (.pair (.point dh2) (.point dh3))
                            let hs := (keySchedule T ikm).1
                            let sk := (keySchedule T ikm).2
                            let expectedRMac :=
                              B.hmac (.slice hs 0 32) (.pair (.label "ServerMAC") T)
                            if rmac = expectedRMac then
                              let ke3 := B.hmac (.slice hs 32 32)
                                (.pair (.label "ClientMAC") (.pair T rmac))
                              (.ok ke3,
                               { ClientState.zeroized .awaitFinish with
                                   phase := .awaitFinish
                                   server_public_key := some rpkW
                                   session_key := some sk
                                   master_key := some mkRec },
                               rng)
                            else (.error .AuthenticationError,
                                  ClientState.zeroized .failed, rng)
                        | _, _, _ => (.error .InvalidPublicKey,
                                      ClientState.zeroized .failed, rng)
            | _ => (.error .ValidationError, ClientState.zeroized .failed, rng)
        | _ => (.error .ValidationError, ClientState.zeroized .failed, rng)
    | _, _, _, _ => (.error .InvalidInput, st, rng)

/-- Modelled from the spec: §4.4 `finish(state) → (session_key[64],
master_key[32])` — return the stored values, zeroize the state and move it
to `DONE_AUTH`.  The authoritative C signature is `opaque_client_finish`
in `opaque_client_c.h` lines 171-178, which returns both the session key
and the master key; the translation unit is not in the repository. -/
def opaque_client_finish (st : ClientState) : Except Result (B × B) × ClientState :=
  if st.phase ≠ .awaitFinish then (.error .InvalidInput, st)
  else
    match st.session_key, st.master_key with
    | some sk, some mk => (.ok (sk, mk), ClientState.zeroized .doneAuth)
    | _, _ => (.error .InvalidInput, st)

end client

namespace responder

/-- The per-credential record persisted by the responder, with the field
list of `ResponderCredentials` in `opaque.h` lines 125-131 (envelope,
masking key, initiator public key). -/
structure ResponderCredentials where
  envelope : B
  masking_key : B
  initiator_public_key : Zq
deriving DecidableEq, Repr

/-- The responder session state, with the field list of `ResponderState`
in `responder.h` lines 19-30. -/
structure ResponderState where
  responder_private_key : Option Zq
  responder_public_key : Option Zq
  responder_ephemeral_private_key : Option Zq
  responder_ephemeral_public_key : Option Zq
  initiator_public_key : Option Zq
  session_key : Option B
  expected_initiator_mac : Option B
deriving DecidableEq, Repr

/-- A fresh, empty responder state. -/
def ResponderState.fresh : ResponderState :=
  { responder_private_key := none, responder_public_key := none
    responder_ephemeral_private_key := none
    responder_ephemeral_public_key := none, initiator_public_key := none
    session_key := none, expected_initiator_mac := none }

/-- Modelled from the spec: §4.5 `create_registration_response` — exact
size check on the 32-byte request, OPRF-evaluate the blinded element with
the responder key, draw the 32-byte masking key, emit
`evaluated ‖ responder_pk ‖ masking_key` (96 bytes) and hand back the
masking key for the credential store.  Matches the
`create_registration_response_impl` signature of `responder.h` lines
76-82 (responder private and public key passed explicitly); the
translation unit is not in the repository. -/
def create_registration_response (request : B) (rsk rpk : Zq) (rng : Rng) :
    Except Result (B × B) × Rng :=
  if request.size ≠ Canon.REGISTRATION_REQUEST_LENGTH then (.error .InvalidInput, rng)
  else
    match request with
    | .point blinded =>
        match oblivious_prf.evaluate blinded rsk with
        | .error e => (.error e, rng)
        | .ok ev =>
            match rng.drawBlob with
            | none => (.error .CryptoError, rng)
            | some (mn, rng1) =>
                let maskingKey := B.nonce mn
                (.ok (.pair (.point ev) (.pair (.point rpk) maskingKey), maskingKey),
                 rng1)
    | _ => (.error .ValidationError, rng)

/-- Modelled from the spec: §4.5 step 4 — "the responder stores whatever
it needs to reconstruct the evaluation at login time" (the persistence
layout is implementation-defined, spec §6).  The model ingests the
uploaded 208-byte registration record `responder_pk ‖ envelope` together
with the enrolled initiator public key delivered by the enrollment
channel, and keeps the masking key drawn at registration. -/
def ingest_record (maskingKey record : B) (ipk : Zq) :
    Except Result ResponderCredentials :=
  match record with
  | .pair (.point _rpk) env =>
      if env.size = Canon.ENVELOPE_LENGTH then
        .ok { envelope := env, masking_key := maskingKey
              initiator_public_key := ipk }
      else .error .InvalidInput
  | _ => .error .ValidationError

/-- Modelled from the spec: §4.5 `generate_ke2(KE1[96], credentials)` —
exact-size check first (spec §3 invariant 4), parse
`initiator_nonce ‖ initiator_epk ‖ credential_request`, recompute the
evaluated element, build the 208-byte credential response from the stored
envelope, draw the ephemeral key pair and responder nonce, hash the
transcript, compute the three DH shares, run the key schedule, emit KE2
`responder_nonce ‖ repk ‖ credential_response ‖ responder_mac` and store
the session key and expected initiator MAC.  Matches the
`generate_ke2_impl` signature of `responder.h` lines 84-91; the
translation unit is not in the repository. -/
def generate_ke2 (ke1 : B) (creds : ResponderCredentials) (rsk rpk : Zq)
    (st : ResponderState) (rng : Rng) :
    Except Result B × ResponderState × Rng :=
  if ke1.size ≠ Canon.KE1_LENGTH then (.error .InvalidInput, st, rng)
  else
    match ke1 with
    | .pair _cn (.pair (.point epk) (.point blinded)) =>
        match oblivious_prf.evaluate blinded rsk with
        | .error e => (.error e, st, rng)
        | .ok ev =>
            let credResp := B.pair (.point ev) creds.envelope
            match rng.drawScalarStrict with
            | none => (.error .CryptoError, st, rng)
            | some (seed, rng1) =>
                match crypto.derive_key_pair seed with
                | .error e => (.error e, st, rng1)
                | .ok (resk, repk) =>
                    match rng1.drawBlob with
                    | none => (.error .CryptoError, st, rng1)
                    | some (rn, rng2) =>
                        let T := B.hash (.pair ke1
                          (.pair credResp (.pair (.nonce rn) (.point repk))))
                        match crypto.scalar_mult resk epk, crypto.scalar_mult rsk epk,
                              crypto.scalar_mult resk creds.initiator_public_key with
                        | .ok dh1, .ok dh2, .ok dh3 =>
                            let ikm := B.pair (.point dh1)
                              (.pair (.point dh2) (.point dh3))
                            let hs := (keySchedule T ikm).1
                            let sk := (keySchedule T ikm).2
                            let rmac := B.hmac (.slice hs 0 32)
                              (.pair (.label "ServerMAC") T)
                            let expCMac := B.hmac (.slice hs 32 32)
                              (.pair (.label "ClientMAC") (.pair T rmac))
                            (.ok (.pair (.nonce rn)
                                   (.pair (.point repk) (.pair credResp rmac))),
                             { responder_private_key := some rsk
                               responder_public_key := some rpk
                               responder_ephemeral_private_key := some resk
                               responder_ephemeral_public_key := some repk
                               initiator_public_key := some creds.initiator_public_key
                               session_key := some sk
                               expected_initiator_mac := some expCMac },
                             rng2)
                        | _, _, _ => (.error .InvalidPublicKey, st, rng2)
    | _ => (.error .ValidationError, st, rng)

/-- Modelled from the spec: §4.5 `finish(KE3[64], state)` — exact-size
check, constant-time comparison of KE3 against the stored expected
initiator MAC, return the stored session key on success.  Matches the
`responder_finish_impl` signature of `responder.h` lines 93-97 (the state
is taken `const`); the translation unit is not in the repository. -/
def responder_finish (ke3 : B) (st : ResponderState) : Except Result B :=
  if ke3.size ≠ Canon.KE3_LENGTH then .error .InvalidInput
  else
    match st.expected_initiator_mac, st.session_key with
    | some em, some sk => if ke3 = em then .ok sk else .error .AuthenticationError
    | _, _ => .error .InvalidInput

end responder

/-- The initiator public key the enrollment channel delivers to the
responder alongside the record: in the model it is read back out of the
record being ingested (the spec leaves the responder's persistence layout
open, §4.5 step 4 and §6). -/
def recordIpk : B → Option Zq
  | .pair _ (.pair _ (.pair (.enc _ _ (.pair (.scalarV isk) _)) _)) => some isk
  | _ => none

/-- The complete registration exchange followed by the complete
authentication exchange of spec §2: `create_registration_request →
create_registration_response → finalize_registration → (record stored) →
generate_ke1 → generate_ke2 → generate_ke3 → both finish operations`.
Returns `(initiator session key, responder session key, recovered master
key)` when every step succeeds.  `regC`/`regR` and `authC`/`authR` are
the client/responder random tapes of the two exchanges; the client is
configured with the responder public key `rsk·G`. -/
def happyPath (p m : B) (rsk : Zq) (regC regR authC authR : Rng) :
    Option (B × B × B) :=
  match client.create_registration_request p .fresh regC with
  | (.ok req, st1, regC1) =>
      match responder.create_registration_response req rsk rsk regR with
      | (.ok (resp, maskKey), _) =>
          match client.finalize_registration resp m st1 regC1 with
          | (.ok record, _, _) =>
              match recordIpk record with
              | some ipk =>
                  match responder.ingest_record maskKey record ipk with
                  | .ok creds =>
                      match client.generate_ke1 p .fresh authC with
                      | (.ok ke1, ast1, authC1) =>
                          match responder.generate_ke2 ke1 creds rsk rsk .fresh authR with
                          | (.ok ke2, rst, _) =>
                              match client.generate_ke3 ke2 rsk ast1 authC1 with
                              | (.ok ke3, ast2, _) =>
                                  match client.opaque_client_finish ast2 with
                                  | (.ok (csk, cmk), _) =>
                                      match responder.responder_finish ke3 rst with
                                      | .ok ssk => some (csk, ssk, cmk)
                                      | .error _ => none
                                  | _ => none
                              | _ => none
                          | _ => none
                      | _ => none
                  | .error _ => none
              | none => none
          | _ => none
      | _ => none
  | _ => none



/-- The round-trip observation on a `happyPath` run: every step succeeded,
the two sides' session keys agree byte-for-byte, and the initiator
recovered exactly the master key supplied at registration. -/
def roundTripOk (p m : B) (rsk : Zq) (regC regR authC authR : Rng) : Bool :=
  match happyPath p m rsk regC regR authC authR with
  | some (csk, ssk, mkRec) => csk == ssk && mkRec == m
  | none => false

/-- The randomized password of spec §4.4 step 3:
`HKDF-Extract("", oprf_output ‖ password_hash)` with the OPRF output of
§4.2 `finalize` already unblinded to `unblinded`. -/
def randomizedPwd (pwd : B) (unblinded : Zq) : B :=
  B.extract (.label "")
    (.pair (B.extract (.label "") (.pair pwd (.point unblinded))) (.hash pwd))

/-! ## Claim theorems -/

/-- C3: the wire sizes compose exactly — in the canonical header,
`KE2_LENGTH = NONCE_LENGTH + PUBLIC_KEY_LENGTH + CREDENTIAL_RESPONSE_LENGTH
+ MAC_LENGTH` (336 = 32 + 32 + 208 + 64) and `CREDENTIAL_RESPONSE_LENGTH =
PUBLIC_KEY_LENGTH + ENVELOPE_LENGTH` (208 = 32 + 176), and every KE2 value
assembled by the model (`responder.generate_ke2`) carries exactly those
component sizes. -/
theorem C3_wire_sizes_compose :
    (Canon.KE2_LENGTH =
       Canon.NONCE_LENGTH + Canon.PUBLIC_KEY_LENGTH +
       Canon.CREDENTIAL_RESPONSE_LENGTH + Canon.MAC_LENGTH ∧
     Canon.CREDENTIAL_RESPONSE_LENGTH =
       Canon.PUBLIC_KEY_LENGTH + Canon.ENVELOPE_LENGTH ∧
     Canon.KE2_LENGTH = 336 ∧ Canon.NONCE_LENGTH = 32 ∧
     Canon.PUBLIC_KEY_LENGTH = 32 ∧ Canon.CREDENTIAL_RESPONSE_LENGTH = 208 ∧
     Canon.MAC_LENGTH = 64 ∧ Canon.ENVELOPE_LENGTH = 176) ∧
    ∀ (i : Nat) (x ev : Zq) (env k d : B),
      env.size = Canon.ENVELOPE_LENGTH →
      (B.pair (.point ev) env).size = Canon.CREDENTIAL_RESPONSE_LENGTH ∧
      (B.pair (.nonce i) (.pair (.point x)
         (.pair (B.pair (.point ev) env) (.hmac k d)))).size = Canon.KE2_LENGTH := by
  constructor
  · decide
  · intro i x ev env k d henv
    simp [B.size, henv, Canon.CREDENTIAL_RESPONSE_LENGTH, Canon.KE2_LENGTH,
      Canon.ENVELOPE_LENGTH]

/-- Witness for C3 at a concrete 176-byte envelope value. -/
theorem C3_wire_sizes_compose_witness :
    (B.bytes (List.replicate 176 0)).size = Canon.ENVELOPE_LENGTH ∧
    (B.pair (.point 1) (B.bytes (List.replicate 176 0))).size =
      Canon.CREDENTIAL_RESPONSE_LENGTH ∧
    (B.pair (.nonce 0) (.pair (.point 2)
       (.pair (B.pair (.point 1) (B.bytes (List.replicate 176 0)))
         (.hmac (.label "k") (.label "d"))))).size = Canon.KE2_LENGTH := by
  have h : (B.bytes (List.replicate 176 0)).size = Canon.ENVELOPE_LENGTH := by
    show (List.replicate 176 (0 : Nat)).length = Canon.ENVELOPE_LENGTH
    rw [List.length_replicate]; rfl
  have h2 := C3_wire_sizes_compose.2 0 2 1 (B.bytes (List.replicate 176 0))
    (.label "k") (.label "d") h
  exact ⟨h, h2.1, h2.2⟩

/-- C5: every wire input whose length differs from the declared fixed
length (registration response 96, KE1 96, KE2 336, KE3 64, registration
request 32) is rejected with `InvalidInput` (-1) before any cryptographic
work — the session state and the random tape are returned untouched, so
no RNG draw has happened — and inputs are never trimmed or zero-padded
(over-long inputs are rejected the same way as short ones). -/
theorem C5_size_mismatch_rejected_early :
    (∀ (response mk : B) (st : client.ClientState) (rng : Rng),
       response.size ≠ Canon.REGISTRATION_RESPONSE_LENGTH →
       client.finalize_registration response mk st rng =
         (.error .InvalidInput, st, rng)) ∧
    (∀ (ke1 : B) (creds : responder.ResponderCredentials) (rsk rpk : Zq)
       (st : responder.ResponderState) (rng : Rng),
       ke1.size ≠ Canon.KE1_LENGTH →
       responder.generate_ke2 ke1 creds rsk rpk st rng =
         (.error .InvalidInput, st, rng)) ∧
    (∀ (ke2 : B) (cfg : Zq) (st : client.ClientState) (rng : Rng),
       ke2.size ≠ Canon.KE2_LENGTH →
       client.generate_ke3 ke2 cfg st rng = (.error .InvalidInput, st, rng)) ∧
    (∀ (ke3 : B) (st : responder.ResponderState),
       ke3.size ≠ Canon.KE3_LENGTH →
       responder.responder_finish ke3 st = .error .InvalidInput) ∧
    (∀ (request : B) (rsk rpk : Zq) (rng : Rng),
       request.size ≠ Canon.REGISTRATION_REQUEST_LENGTH →
       responder.create_registration_response request rsk rpk rng =
         (.error .InvalidInput, rng)) ∧
    Result.InvalidInput.toInt = -1 := by
  refine ⟨?_, ?_, ?_, ?_, ?_, rfl⟩
  · intro response mk st rng h
    simp [client.finalize_registration, h]
  · intro ke1 creds rsk rpk st rng h
    simp [responder.generate_ke2, h]
  · intro ke2 cfg st rng h
    simp [client.generate_ke3, h]
  · intro ke3 st h
    simp [responder.responder_finish, h]
  · intro request rsk rpk rng h
    simp [responder.create_registration_response, h]

/-- Witness for C5: a 32-byte value is rejected by every receiver whose
declared length is not 32, and a 64-byte value by the 32-byte receiver. -/
theorem C5_size_mismatch_rejected_early_witness :
    ((B.point 0).size ≠ Canon.REGISTRATION_RESPONSE_LENGTH ∧
     client.finalize_registration (B.point 0) (B.point 0)
       client.ClientState.fresh ⟨[], []⟩ =
       (.error .InvalidInput, client.ClientState.fresh, ⟨[], []⟩)) ∧
    ((B.point 0).size ≠ Canon.KE1_LENGTH ∧
     responder.generate_ke2 (B.point 0) ⟨B.point 0, B.point 0, 0⟩ 1 1
       responder.ResponderState.fresh ⟨[], []⟩ =
       (.error .InvalidInput, responder.ResponderState.fresh, ⟨[], []⟩)) ∧
    ((B.point 0).size ≠ Canon.KE2_LENGTH ∧
     client.generate_ke3 (B.point 0) 1 client.ClientState.fresh ⟨[], []⟩ =
       (.error .InvalidInput, client.ClientState.fresh, ⟨[], []⟩)) ∧
    ((B.point 0).size ≠ Canon.KE3_LENGTH ∧
     responder.responder_finish (B.point 0) responder.ResponderState.fresh =
       .error .InvalidInput) ∧
    ((B.hmac (.label "k") (.label "d")).size ≠ Canon.REGISTRATION_REQUEST_LENGTH ∧
     responder.create_registration_response (B.hmac (.label "k") (.label "d")) 1 1
       ⟨[], []⟩ = (.error .InvalidInput, ⟨[], []⟩)) := by
  refine ⟨⟨by decide, ?_⟩, ⟨by decide, ?_⟩, ⟨by decide, ?_⟩, ⟨by decide, ?_⟩,
    ⟨by decide, ?_⟩⟩
  · exact C5_size_mismatch_rejected_early.1 _ _ _ _ (by decide)
  · exact C5_size_mismatch_rejected_early.2.1 _ _ _ _ _ _ (by decide)
  · exact C5_size_mismatch_rejected_early.2.2.1 _ _ _ _ (by decide)
  · exact C5_size_mismatch_rejected_early.2.2.2.1 _ _ (by decide)
  · exact C5_size_mismatch_rejected_early.2.2.2.2.1 _ _ _ _ (by decide)

set_option maxHeartbeats 2000000 in
/-- C1: for every password `p`, 32-byte master key `m` and responder key
pair (`rsk`, `rsk·G`), the full registration exchange
(`create_registration_request`, `create_registration_response`,
`finalize_registration`) followed by the full authentication exchange
(`generate_ke1`, `generate_ke2`, `generate_ke3`, both finish operations)
with the same `p` succeeds, produces byte-for-byte identical session keys
on the initiator and the responder, and the initiator's finish recovers
exactly `m`.  The hypotheses say only that the random tapes supply enough
nonzero scalars and that the password does not hash to the group
identity. -/
theorem C1_registration_then_authentication_round_trip
    (p m : B) (rsk r1 iskSeed r2 esk resk : Zq) (en cn rn mn : Nat)
    (hp : oblivious_prf.hash_to_group p ≠ 0)
    (hrsk : rsk ≠ 0) (hr1 : r1 ≠ 0) (hisk : iskSeed ≠ 0)
    (hr2 : r2 ≠ 0) (hesk : esk ≠ 0) (hresk : resk ≠ 0)
    (hm : m.size = 32) :
    roundTripOk p m rsk ⟨[r1, iskSeed], [en]⟩ ⟨[], [mn]⟩
      ⟨[r2, esk], [cn]⟩ ⟨[resk], [rn]⟩ = true := by
  have f1 : oblivious_prf.hash_to_group p * r1 ≠ 0 := mul_ne_zero hp hr1
  have f2 : oblivious_prf.hash_to_group p * r1 * rsk ≠ 0 := mul_ne_zero f1 hrsk
  have f3 : oblivious_prf.hash_to_group p * r2 ≠ 0 := mul_ne_zero hp hr2
  have f4 : oblivious_prf.hash_to_group p * r2 * rsk ≠ 0 := mul_ne_zero f3 hrsk
  have f5 : resk * esk ≠ 0 := mul_ne_zero hresk hesk
  have f6 : rsk * esk ≠ 0 := mul_ne_zero hrsk hesk
  have f7 : resk * iskSeed ≠ 0 := mul_ne_zero hresk hisk
  have f8 : esk * resk ≠ 0 := mul_ne_zero hesk hresk
  have f9 : esk * rsk ≠ 0 := mul_ne_zero hesk hrsk
  have f10 : iskSeed * resk ≠ 0 := mul_ne_zero hisk hresk
  have hg : oblivious_prf.hash_to_group p * rsk ≠ 0 := mul_ne_zero hp hrsk
  have e1 : oblivious_prf.hash_to_group p * r1 * rsk * r1⁻¹ =
      oblivious_prf.hash_to_group p * rsk := by
    field_simp
    ring
  have e2 : oblivious_prf.hash_to_group p * r2 * rsk * r2⁻¹ =
      oblivious_prf.hash_to_group p * rsk := by
    field_simp
    ring
  have c1 : resk * esk = esk * resk := mul_comm _ _
  have c2 : rsk * esk = esk * rsk := mul_comm _ _
  have c3 : resk * iskSeed = iskSeed * resk := mul_comm _ _
  simp [roundTripOk, happyPath, recordIpk,
    client.create_registration_request, client.finalize_registration,
    client.generate_ke1, client.generate_ke3, client.opaque_client_finish,
    client.ClientState.fresh, client.ClientState.zeroized,
    responder.create_registration_response, responder.ingest_record,
    responder.generate_ke2, responder.responder_finish,
    responder.ResponderState.fresh,
    oblivious_prf.blind, oblivious_prf.evaluate, oblivious_prf.finalize,
    crypto.derive_key_pair, crypto.scalar_mult,
    envelope.sealEnv, envelope.openEnv, keySchedule,
    Rng.drawNonzeroScalar, Rng.drawScalarStrict, Rng.drawBlob,
    B.size, Canon.REGISTRATION_REQUEST_LENGTH, Canon.REGISTRATION_RESPONSE_LENGTH,
    Canon.MASTER_KEY_LENGTH, Canon.KE1_LENGTH, Canon.KE2_LENGTH, Canon.KE3_LENGTH,
    Canon.ENVELOPE_LENGTH, Canon.NONCE_LENGTH, Canon.MAC_LENGTH,
    hp, hr1, hr2, hisk, hesk, hresk, hrsk, hm,
    f1, f2, f3, f4, f5, f6, f7, f8, f9, f10, hg, e1, e2, c1, c2, c3]

/-- Witness for C1 at concrete values: password bytes `[1, 2, 3]`,
an all-zero 32-byte master key, responder private key 3, and nonzero
tape scalars. -/
theorem C1_registration_then_authentication_round_trip_witness :
    roundTripOk (B.bytes [1, 2, 3]) (B.bytes (List.replicate 32 0)) 3
      ⟨[2, 5], [7]⟩ ⟨[], [11]⟩ ⟨[4, 6], [8]⟩ ⟨[9], [10]⟩ = true := by
  exact C1_registration_then_authentication_round_trip
    (B.bytes [1, 2, 3]) (B.bytes (List.replicate 32 0)) 3 2 5 4 6 9 7 8 10 11
    (by decide) (by decide) (by decide) (by decide) (by decide) (by decide)
    (by decide) (by decide)

/-- C2: on a state that reached `AWAIT_FINISH` (a successful
`generate_ke3`), the authoritative master-key-returning finish returns
both the stored 64-byte session key and the stored 32-byte master key,
and the post-state is the zeroized state in `DONE_AUTH`: every secret
field is wiped. -/
theorem C2_finish_returns_stored_and_zeroizes
    (st : client.ClientState) (sk mk : B)
    (hph : st.phase = .awaitFinish)
    (hsk : st.session_key = some sk) (hmk : st.master_key = some mk)
    (hs64 : sk.size = 64) (hm32 : mk.size = 32) :
    client.opaque_client_finish st =
      (.ok (sk, mk), client.ClientState.zeroized .doneAuth) ∧
    sk.size = 64 ∧ mk.size = 32 ∧
    (client.ClientState.zeroized .doneAuth).phase = .doneAuth ∧
    (client.ClientState.zeroized .doneAuth).session_key = none ∧
    (client.ClientState.zeroized .doneAuth).master_key = none ∧
    (client.ClientState.zeroized .doneAuth).password = none ∧
    (client.ClientState.zeroized .doneAuth).oprf_blind_scalar = none ∧
    (client.ClientState.zeroized .doneAuth).client_private_key = none ∧
    (client.ClientState.zeroized .doneAuth).client_ephemeral_private_key = none := by
  refine ⟨?_, hs64, hm32, rfl, rfl, rfl, rfl, rfl, rfl, rfl⟩
  simp [client.opaque_client_finish, hph, hsk, hmk]

/-- Witness for C2 at a concrete `AWAIT_FINISH` state holding a 64-byte
session key and a 32-byte master key. -/
theorem C2_finish_returns_stored_and_zeroizes_witness :
    client.opaque_client_finish
      { client.ClientState.zeroized .awaitFinish with
          session_key := some (B.expand (.label "p") (.label "SessionKey") 64)
          master_key := some (B.bytes (List.replicate 32 1)) } =
      (.ok (B.expand (.label "p") (.label "SessionKey") 64,
            B.bytes (List.replicate 32 1)),
       client.ClientState.zeroized .doneAuth) := by
  exact (C2_finish_returns_stored_and_zeroizes
    { client.ClientState.zeroized .awaitFinish with
        session_key := some (B.expand (.label "p") (.label "SessionKey") 64)
        master_key := some (B.bytes (List.replicate 32 1)) }
    (B.expand (.label "p") (.label "SessionKey") 64)
    (B.bytes (List.replicate 32 1))
    rfl rfl rfl rfl (by simp [B.size])).1

/-- C4: a successful `finalize_registration` on a 96-byte registration
response `evaluated ‖ responder_pk ‖ nonce` and a 32-byte master key
emits exactly `responder_pk ‖ sealed-envelope` as the 208-byte record —
the 32-byte responder public key first, then the 176-byte envelope — and
zeroizes the state into `DONE_REG`. -/
theorem C4_record_is_pk_then_envelope
    (pwd m : B) (ev rpk r seed : Zq) (mn n : Nat)
    (scTail : List Zq) (blTail : List Nat)
    (hr : r ≠ 0) (hseed : seed ≠ 0) (hm : m.size = Canon.MASTER_KEY_LENGTH) :
    client.finalize_registration
      (B.pair (.point ev) (.pair (.point rpk) (.nonce mn))) m
      { client.ClientState.zeroized .awaitRegResp with
          password := some pwd, oprf_blind_scalar := some r }
      ⟨seed :: scTail, n :: blTail⟩ =
      (.ok (B.pair (.point rpk)
         (envelope.sealEnv (randomizedPwd pwd (ev * r⁻¹)) rpk seed seed m n)),
       client.ClientState.zeroized .doneReg, ⟨scTail, blTail⟩) ∧
    (B.point rpk).size = Canon.PUBLIC_KEY_LENGTH ∧
    (envelope.sealEnv (randomizedPwd pwd (ev * r⁻¹)) rpk seed seed m n).size =
      Canon.ENVELOPE_LENGTH ∧
    (B.pair (.point rpk)
       (envelope.sealEnv (randomizedPwd pwd (ev * r⁻¹)) rpk seed seed m n)).size =
      208 := by
  have hm32 : m.size = 32 := hm
  refine ⟨?_, rfl, ?_, ?_⟩
  · simp [client.finalize_registration, B.size, hm32, client.ClientState.zeroized,
      Canon.REGISTRATION_RESPONSE_LENGTH, Canon.MASTER_KEY_LENGTH,
      Rng.drawNonzeroScalar, Rng.drawBlob, hseed, hr,
      oblivious_prf.finalize, crypto.derive_key_pair,
      envelope.sealEnv, randomizedPwd]
  · simp [envelope.sealEnv, B.size, hm32, Canon.ENVELOPE_LENGTH]
  · simp [envelope.sealEnv, B.size, hm32]

/-- Witness for C4 at concrete inputs. -/
theorem C4_record_is_pk_then_envelope_witness :
    client.finalize_registration
      (B.pair (.point 2) (.pair (.point 3) (.nonce 4)))
      (B.bytes (List.replicate 32 7))
      { client.ClientState.zeroized .awaitRegResp with
          password := some (B.bytes [9]), oprf_blind_scalar := some 5 }
      ⟨[6], [8]⟩ =
      (.ok (B.pair (.point 3)
         (envelope.sealEnv (randomizedPwd (B.bytes [9]) (2 * (5 : Zq)⁻¹)) 3 6 6
           (B.bytes (List.replicate 32 7)) 8)),
       client.ClientState.zeroized .doneReg, ⟨[], []⟩) := by
  exact (C4_record_is_pk_then_envelope (B.bytes [9]) (B.bytes (List.replicate 32 7))
    2 3 5 6 4 8 [] [] (by decide) (by decide) (by decide)).1

/-- C6: the error taxonomy is fixed and identical across the C++ `Result`
enumeration, the C `opaque_result_t` enumeration and the legacy header's
`Result`: corresponding constructors map to the same integers
(0, -1, ..., -6), the correspondences are exhaustive, and every status
integer is drawn from exactly this seven-value set. -/
theorem C6_error_taxonomy_identical :
    (∀ r : Result, (resultToC r).toInt = r.toInt) ∧
    (∀ r : Result, (resultToSim r).toInt = r.toInt) ∧
    (∀ c : opaque_result_t, ∃ r : Result, resultToC r = c) ∧
    (∀ s : SimResult, ∃ r : Result, resultToSim r = s) ∧
    Result.Success.toInt = 0 ∧ Result.InvalidInput.toInt = -1 ∧
    Result.CryptoError.toInt = -2 ∧ Result.MemoryError.toInt = -3 ∧
    Result.ValidationError.toInt = -4 ∧ Result.AuthenticationError.toInt = -5 ∧
    Result.InvalidPublicKey.toInt = -6 ∧
    (∀ r : Result, r.toInt ∈ ([0, -1, -2, -3, -4, -5, -6] : List Int)) := by
  decide

/-- C7: the envelope size is a single compile-time constant — 176 bytes in
the canonical header — and each header generation's derived sizes
(credential response, KE2) are consistent with exactly one of the two
envelope layouts, so no constant set accepts both. -/
theorem C7_single_envelope_layout :
    Canon.ENVELOPE_LENGTH = 176 ∧
    consistentWith176 canonicalLayout ∧ ¬consistentWith144 canonicalLayout ∧
    consistentWith144 legacyLayout ∧ ¬consistentWith176 legacyLayout ∧
    canonicalLayout.envelopeLen ≠ legacyLayout.envelopeLen := by
  decide

/-- C9: the 32-byte protocol nonce length satisfies the 24-byte minimum of
the secret-box cipher in both header generations (the canonical header's
`static_assert(NONCE_LENGTH >= 24)`), and every envelope the model seals
carries a nonce of exactly `NONCE_LENGTH` bytes, so the cipher is never
invoked with an undersized nonce. -/
theorem C9_nonce_length_sufficient :
    Canon.NONCE_LENGTH ≥ 24 ∧ Legacy.NONCE_LENGTH ≥ 24 ∧
    ∀ (rpwd : B) (rpk isk ipk : Zq) (mk : B) (n : Nat),
      ∃ rest, envelope.sealEnv rpwd rpk isk ipk mk n = B.pair (B.nonce n) rest ∧
        (B.nonce n).size = Canon.NONCE_LENGTH ∧ Canon.NONCE_LENGTH ≥ 24 := by
  refine ⟨by decide, by decide, ?_⟩
  intro rpwd rpk isk ipk mk n
  exact ⟨_, rfl, rfl, by decide⟩

/-- C10: the role objects and the secure buffer cannot be duplicated —
`OpaqueClient`, `OpaqueResponder`, `OpaqueServer` and both generations of
`SecureBuffer` declare their copy constructor and copy assignment deleted,
and `SecureBuffer` is movable (moved, never copied). -/
theorem C10_roles_not_copyable :
    OpaqueClient.copyControl.copyCtorDeleted = true ∧
    OpaqueClient.copyControl.copyAssignDeleted = true ∧
    OpaqueResponder.copyControl.copyCtorDeleted = true ∧
    OpaqueResponder.copyControl.copyAssignDeleted = true ∧
    OpaqueServer.copyControl.copyCtorDeleted = true ∧
    OpaqueServer.copyControl.copyAssignDeleted = true ∧
    SecureBuffer.copyControl.copyCtorDeleted = true ∧
    SecureBuffer.copyControl.copyAssignDeleted = true ∧
    SecureBuffer.copyControl.moveCtorPresent = true ∧
    SecureBuffer.copyControl.moveAssignPresent = true ∧
    SecureBufferLegacy.copyControl.copyCtorDeleted = true ∧
    SecureBufferLegacy.copyControl.copyAssignDeleted = true := by
  decide

end Ecliptix
